import Mathlib

/-!
Verification of the batched keypoint-inference pipeline of `lab_mocap`
(`rtmlib/tools/pose_estimation/rtmpose.py` and `rtmlib/tools/base.py`).

Scalars are embedded as rationals (`ℚ`); numpy arrays whose shape matters are
embedded as structures carrying explicit dimensions together with a total
indexing function (reads outside the recorded dimensions return junk values,
mirroring the fact that no claim exercises the out-of-range error paths of
numpy).  The backend (the ONNX model) is an abstract parameter
`net : List Crop → Tensor3 × Tensor3`; wall-clock measurements are abstract
parameters collected in a `Clock`.
-/

namespace LabMocap

/-- A 3-channel pixel value (BGR order, as produced by OpenCV). -/
abbrev Pix := Fin 3 → ℚ

/-- A source frame, indexed by continuous image coordinates (x, y). -/
abbrev Image := ℚ → ℚ → Pix

/-- A fixed-size crop, indexed by target-grid pixel coordinates. -/
abbrev Crop := ℕ → ℕ → Pix

/-- An axis-aligned bounding box in xyxy format, pixel units. -/
structure BBox where
  x1 : ℚ
  y1 : ℚ
  x2 : ℚ
  y2 : ℚ

/-- A 2-vector (used for centers and for width/height scales). -/
abbrev Vec2 := ℚ × ℚ

/-- Modelled from the spec: `bbox_xyxy2cs` of `pre_processings.py` (the file is
not under `src/`; only its caller `rtmpose.py` is).  Spec §4.2 step 1: raw
center is the box midpoint, raw scale is (box width, box height) times the
padding factor. -/
def bbox_xyxy2cs (b : BBox) (padding : ℚ) : Vec2 × Vec2 :=
  (((b.x1 + b.x2) / 2, (b.y1 + b.y2) / 2),
   ((b.x2 - b.x1) * padding, (b.y2 - b.y1) * padding))

/-- Modelled from the spec: the aspect-ratio correction inside
`top_down_affine` (`pre_processings.py`, not under `src/`).  Spec §4.2 step 2:
if scale_width/scale_height > target_ratio then scale_height becomes
scale_width/target_ratio, else scale_width becomes scale_height*target_ratio. -/
def fixAspectRatio (scale : Vec2) (targetRatio : ℚ) : Vec2 :=
  if scale.1 / scale.2 > targetRatio then (scale.1, scale.1 / targetRatio)
  else (scale.2 * targetRatio, scale.2)

/-- Modelled from the spec: `top_down_affine` of `pre_processings.py` (not
under `src/`).  Spec §4.2 steps 2-5: correct the scale's aspect ratio to the
target ratio, build the rotation-free affine transform mapping the
(center, scale) rectangle onto the target pixel grid, warp the frame through
it, and return the crop together with the *adjusted* scale.  The warp is
embedded as exact point sampling of the continuous source image. -/
def top_down_affine (size : ℕ × ℕ) (scale center : Vec2) (img : Image) :
    Crop × Vec2 :=
  let adj := fixAspectRatio scale ((size.1 : ℚ) / (size.2 : ℚ))
  (fun px py => img (center.1 - adj.1 / 2 + (px : ℚ) / (size.1 : ℚ) * adj.1)
                    (center.2 - adj.2 / 2 + (py : ℚ) / (size.2 : ℚ) * adj.2),
   adj)

/-- Per-channel normalization of a crop: subtract the mean, divide by the
standard deviation (rtmpose.py lines 121-125, via cv2.subtract / cv2.divide). -/
def normalizeCrop (mean std : Pix) (crop : Crop) : Crop :=
  fun px py c => (crop px py c - mean c) / std c

/-- The stored instance state of `RTMPose` that `preprocess`/`postprocess`
read: model input size (width, height), the stored per-channel normalization
attributes `self.mean`/`self.std`, and the keypoint-ordering remap flag.
`mean`/`std` are options because `preprocess` (rtmpose.py lines 121-128)
branches on `self.mean is not None`; `RTMPose.initCfg` — the embedding of
`__init__` — always stores `some` arrays, making the `none` branch
unreachable from a constructed instance. -/
structure RTMPoseCfg where
  model_input_size : ℕ × ℕ
  mean : Option Pix
  std : Option Pix
  to_openpose : Bool

/-- Stand-in for the numpy scalar array `nan` that `np.array(None,
dtype=np.float32)` produces.  ℚ has no NaN, so a designated junk vector is
used; no theorem depends on its numeric entries — only on the fact that it
is an array rather than an absent value. -/
def nanArray : Pix := fun _ => 0

/-- The `np.array(·, dtype=np.float32)` conversion performed by
`RTMPose.__init__` (rtmpose.py lines 25-26): a configured tuple becomes its
per-channel array; `None` is coerced by numpy to the scalar nan array.  In
either case the result is an array, never `None`. -/
def npArrayF32 (v : Option Pix) : Pix := v.getD nanArray

/-- `RTMPose.__init__` (rtmpose.py lines 13-28): stores the model input size
and the remap flag, and unconditionally overwrites `self.mean`/`self.std`
with their np.array conversions — so the stored mean and std are always
present, whatever (tuples or None) was configured. -/
def RTMPose.initCfg (model_input_size : ℕ × ℕ) (mean std : Option Pix)
    (to_openpose : Bool) : RTMPoseCfg :=
  { model_input_size := model_input_size
    mean := some (npArrayF32 mean)
    std := some (npArrayF32 std)
    to_openpose := to_openpose }

/-- A rank-3 tensor (batch, keypoint, resolution) with explicit dimensions. -/
structure Tensor3 where
  n : ℕ
  k : ℕ
  r : ℕ
  data : ℕ → ℕ → ℕ → ℚ

/-- A rank-2 tensor (batch, keypoint) of scores. -/
structure Tensor2 where
  n : ℕ
  k : ℕ
  data : ℕ → ℕ → ℚ

/-- A (batch, keypoint) array of 2-D keypoint coordinates. -/
structure KTensor where
  n : ℕ
  k : ℕ
  data : ℕ → ℕ → Vec2

/-- The length-1 batch slice `t[i:i+1]` taken by `RTMPose.postprocess`
(rtmpose.py lines 180-181). -/
def slice1 (t : Tensor3) (i : ℕ) : Tensor3 :=
  ⟨1, t.k, t.r, fun _ j l => t.data i j l⟩

/-- First-index argmax with its value over `f 0, …, f (len - 1)`: the running
maximum is replaced only on a strictly greater value, so the lowest index wins
ties (numpy `argmax` convention, spec §4.4 step 1). -/
def argmaxFirst (f : ℕ → ℚ) (len : ℕ) : ℕ × ℚ :=
  (List.range len).foldl (fun best i => if f i > best.2 then (i, f i) else best)
    (0, f 0)

/-- Modelled from the spec: `get_simcc_maximum` of `post_processings.py` (not
under `src/`).  Spec §4.4 step 1: per batch element and keypoint, take the
first-index argmax along the horizontal and along the vertical
split-coordinate vector independently; the two maximum values are multiplied
together to form the confidence score. -/
def get_simcc_maximum (simcc_x simcc_y : Tensor3) :
    (ℕ → ℕ → Vec2) × (ℕ → ℕ → ℚ) :=
  (fun i j => (((argmaxFirst (simcc_x.data i j) simcc_x.r).1 : ℚ),
               ((argmaxFirst (simcc_y.data i j) simcc_y.r).1 : ℚ)),
   fun i j => (argmaxFirst (simcc_x.data i j) simcc_x.r).2 *
              (argmaxFirst (simcc_y.data i j) simcc_y.r).2)

/-- Modelled from the spec: `convert_coco_to_openpose` of
`post_processings.py` (not under `src/`).  Spec §4.4: "a deterministic
permutation-plus-derived-points function" that "does not alter the shape
contract" — embedded as a fixed limb-centric relabeling of the keypoint
index within each row (the spec fixes only that it is a shape-preserving
deterministic relabeling, not the concrete order). -/
def openposeOrder : List ℕ := [0, 6, 8, 10, 5, 7, 9, 12, 14, 16, 11, 13, 15, 2, 1, 4, 3]

/-- Modelled from the spec: see `openposeOrder`. -/
def convert_coco_to_openpose (kps : KTensor) (scs : Tensor2) :
    KTensor × Tensor2 :=
  (⟨kps.n, kps.k, fun i j => kps.data i (openposeOrder.getD j j)⟩,
   ⟨scs.n, scs.k, fun i j => scs.data i (openposeOrder.getD j j)⟩)

/-- The loop body of `RTMPose.preprocess` (rtmpose.py lines 111-131) for one
box: compute center and raw scale, warp to the model input size, normalize
when `self.mean is not None` (the source tests only `mean` and reads
`self.std` inside the branch; the `getD` default is never exercised by a
constructed instance, whose std is always stored), and return
(crop, center, adjusted scale). -/
def stepOf (cfg : RTMPoseCfg) (img : Image) (b : BBox) : Crop × Vec2 × Vec2 :=
  let cs := bbox_xyxy2cs b (5 / 4)
  let ra := top_down_affine cfg.model_input_size cs.2 cs.1 img
  let crop := match cfg.mean with
    | some m => normalizeCrop m (cfg.std.getD nanArray) ra.1
    | none => ra.1
  (crop, cs.1, ra.2)

/-- `RTMPose.preprocess` (rtmpose.py lines 94-140): for each box compute
center and scale, warp to the model input size, optionally normalize, and
collect the crops together with the per-box centers and (adjusted) scales in
input order. -/
def RTMPose.preprocess (cfg : RTMPoseCfg) (img : Image) (bboxes : List BBox) :
    List Crop × List Vec2 × List Vec2 :=
  (bboxes.map (fun b => (stepOf cfg img b).1),
   bboxes.map (fun b => (stepOf cfg img b).2.1),
   bboxes.map (fun b => (stepOf cfg img b).2.2))

/-- `RTMPose.postprocess` (rtmpose.py lines 142-205): batch sizes are read
off `simcc_x`; the zero-batch case returns explicitly-shaped empty arrays;
otherwise each batch element is sliced, decoded by `get_simcc_maximum`,
divided by the split ratio, and rescaled by
`loc / split_ratio / model_input_size * scale + center - scale / 2`
using the i-th stored center and adjusted scale. -/
def RTMPose.postprocess (cfg : RTMPoseCfg) (outputs : Tensor3 × Tensor3)
    (centers scales : List Vec2) (splitR : ℚ) : KTensor × Tensor2 :=
  let bx := outputs.1
  let bY := outputs.2
  if bx.n = 0 then
    (⟨0, bx.k, fun _ _ => (0, 0)⟩, ⟨0, bx.k, fun _ _ => 0⟩)
  else
    (⟨bx.n, bx.k, fun i j =>
        let lv := get_simcc_maximum (slice1 bx i) (slice1 bY i)
        let loc := lv.1 0 j
        let c := centers.getD i (0, 0)
        let s := scales.getD i (0, 0)
        (loc.1 / splitR / (cfg.model_input_size.1 : ℚ) * s.1 + c.1 - s.1 / 2,
         loc.2 / splitR / (cfg.model_input_size.2 : ℚ) * s.2 + c.2 - s.2 / 2)⟩,
     ⟨bx.n, bx.k, fun i j =>
        (get_simcc_maximum (slice1 bx i) (slice1 bY i)).2 0 j⟩)

/-- Abstract wall-clock measurements of one `__call__`: the elapsed times the
perf counters report for the whole call and for each measured stage. -/
structure Clock where
  totalElapsed : ℚ
  preprocessElapsed : ℚ
  inferPrepElapsed : ℚ
  inferModelElapsed : ℚ
  postprocessElapsed : ℚ

/-- The `timing_info` dict built by `RTMPose.__call__`, embedded as an
ordered key/value list (its values are all numeric). -/
abbrev TimingInfo := List (String × ℚ)

/-- Result of one `RTMPose.__call__`, instrumented with the number of
`BaseTool.inference` invocations the call performed. -/
structure CallResult where
  keypoints : KTensor
  scores : Tensor2
  timing_info : TimingInfo
  inferenceCalls : ℕ

/-- `RTMPose.__call__` (rtmpose.py lines 30-92).  With no boxes it returns
empty (0, 17, 2) / (0, 17) arrays at once, with the four stage durations
hard-coded to 0 and without touching the backend; otherwise it preprocesses
every box, runs the backend once on the stacked batch, postprocesses with the
stored centers/scales and the default split ratio 2.0, and optionally applies
the COCO-to-openpose remap. -/
def RTMPose.call (cfg : RTMPoseCfg) (net : List Crop → Tensor3 × Tensor3)
    (clk : Clock) (image : Image) (bboxes : List BBox) : CallResult :=
  if bboxes.isEmpty then
    { keypoints := ⟨0, 17, fun _ _ => (0, 0)⟩
      scores := ⟨0, 17, fun _ _ => 0⟩
      timing_info := [(r"total", clk.totalElapsed), (r"preprocess", 0),
                      (r"prep", 0), (r"model", 0), (r"postprocess", 0),
                      (r"num_bboxes", 0)]
      inferenceCalls := 0 }
  else
    let pcs := RTMPose.preprocess cfg image bboxes
    let outputs := net pcs.1
    let ks := RTMPose.postprocess cfg outputs pcs.2.1 pcs.2.2 2
    let final := if cfg.to_openpose then convert_coco_to_openpose ks.1 ks.2 else ks
    { keypoints := final.1
      scores := final.2
      timing_info := [(r"total", clk.totalElapsed),
                      (r"preprocess", clk.preprocessElapsed),
                      (r"prep", clk.inferPrepElapsed),
                      (r"model", clk.inferModelElapsed),
                      (r"postprocess", clk.postprocessElapsed),
                      (r"num_bboxes", (bboxes.length : ℚ))]
      inferenceCalls := 1 }

/-! ### Backend Executor construction (`rtmlib/tools/base.py`) -/

/-- The host environment a `BaseTool` construction runs in: which optional
runtime dependencies import successfully, whether MPS/CoreML support is
reported by onnxruntime (`check_mps_support`, base.py lines 10-16), and
whether the various session/model loading steps succeed. -/
structure Env where
  mpsSupport : Bool
  opencvModelReadable : Bool
  ortAvailable : Bool
  ortSessionOk : Bool
  ovAvailable : Bool
  ovModelOk : Bool

/-- The `'opencv'` row of `RTMLIB_SETTINGS` (base.py lines 19-24): a map from
device selector to the (preferable backend, preferable target) pair of cv2
constants. -/
def opencvSettings (d : String) : Option (String × String) :=
  if d = "cpu" then some (r"DNN_BACKEND_OPENCV", r"DNN_TARGET_CPU")
  else if d = "cuda" then some (r"DNN_BACKEND_CUDA", r"DNN_TARGET_CUDA")
  else none

def cpuEP : String := "CPUExecutionProvider"

def cudaEP : String := "CUDAExecutionProvider"

def rocmEP : String := "ROCMExecutionProvider"

def coremlEP : String := "CoreMLExecutionProvider"

/-- The `'onnxruntime'` row of `RTMLIB_SETTINGS` (base.py lines 25-30): the
`'mps'` entry is `CoreMLExecutionProvider` when `check_mps_support()` reports
support and `CPUExecutionProvider` otherwise. -/
def onnxruntimeSettings (mpsSupport : Bool) (d : String) : Option String :=
  if d = "cpu" then some cpuEP
  else if d = "cuda" then some cudaEP
  else if d = "rocm" then some rocmEP
  else if d = "mps" then some (if mpsSupport then coremlEP else cpuEP)
  else none

/-- A successfully constructed backend session, recording the backend that
was set up and the provider / target / device name it was actually configured
with. -/
inductive Session where
  | opencvSession (backendId targetId : String)
  | onnxruntimeSession (provider : String)
  | openvinoSession (device_name : String)
deriving DecidableEq

/-- A successful construction: the session plus everything printed to the
console about a device switch (base.py lines 75-77; the unconditional
"load … backend" line is omitted as it carries no selection information). -/
structure InitOk where
  session : Session
  printed : List String
deriving DecidableEq

/-- The RuntimeError message of the opencv branch (base.py lines 55-60). -/
def opencvAdvice : String :=
  "This model is not supported by OpenCV backend, please use `pip install onnxruntime` or `pip install onnxruntime-gpu` to install onnxruntime backend. Then specify `backend=onnxruntime`."

def importErrOrt : String := "ModuleNotFoundError: No module named onnxruntime"

def ortSessionErr : String := "onnxruntime.InferenceSession failed"

def keyErrorMsg (d : String) : String := "KeyError: " ++ d

def importErrOv : String := "ModuleNotFoundError: No module named openvino"

def ovCompileErr : String := "openvino model compilation failed"

def notImplementedErr : String := "NotImplementedError"

def openvinoSwitchNotice : String :=
  "OpenVINO only supports CPU backend, automatically switched to CPU backend."

def cpuDevice : String := "CPU"

/-- `BaseTool.__init__` backend selection (base.py lines 46-88).  The opencv
branch wraps both the settings lookup and the model read in one `try`, so any
failure there collapses to the single RuntimeError `opencvAdvice`.  The
onnxruntime branch propagates ImportError / KeyError / session errors as they
are.  The openvino branch always compiles for device name "CPU", printing a
switch notice when a different device was requested.  Any other backend
raises NotImplementedError. -/
def BaseTool.init (env : Env) (backend device : String) :
    Except String InitOk :=
  if backend = "opencv" then
    match opencvSettings device with
    | some bt =>
        if env.opencvModelReadable then .ok ⟨.opencvSession bt.1 bt.2, []⟩
        else .error opencvAdvice
    | none => .error opencvAdvice
  else if backend = "onnxruntime" then
    if env.ortAvailable then
      match onnxruntimeSettings env.mpsSupport device with
      | some p =>
          if env.ortSessionOk then .ok ⟨.onnxruntimeSession p, []⟩
          else .error ortSessionErr
      | none => .error (keyErrorMsg device)
    else .error importErrOrt
  else if backend = "openvino" then
    if env.ovAvailable then
      if env.ovModelOk then
        .ok ⟨.openvinoSession cpuDevice,
             if device = "cpu" then [] else [openvinoSwitchNotice]⟩
      else .error ovCompileErr
    else .error importErrOv
  else .error notImplementedErr

/-- The backend/device selection the spec's words call for (spec §4.1: the
construction must yield exactly the selected backend/device combination or
fail; it "must not silently fall back to a different backend").  Stated from
the spec for comparison against `BaseTool.init`: `'mps'` selects the
CoreML provider, openvino is only selectable on cpu. -/
def specSelectedSession (b d : String) : Option Session :=
  if b = "opencv" then
    Option.map (fun bt => Session.opencvSession bt.1 bt.2) (opencvSettings d)
  else if b = "onnxruntime" then
    Option.map (fun p => Session.onnxruntimeSession p) (onnxruntimeSettings true d)
  else if b = "openvino" then
    (if d = "cpu" then some (Session.openvinoSession cpuDevice) else none)
  else none

def unsupportedDimMsg (n : ℕ) : String :=
  "Unsupported input dimension: " ++ toString n ++ ". Expected 3 (HWC) or 4 (NCHW)."

/-- The input-preparation phase of `BaseTool.inference` (base.py lines
114-125), acting on the input array's shape: a rank-3 HWC array is transposed
to CHW and given a leading batch dimension, a rank-4 NCHW array is passed
through, and any other rank raises ValueError. -/
def BaseTool.prepareInput (shape : List ℕ) : Except String (List ℕ) :=
  match shape with
  | [h, w, c] => .ok [1, c, h, w]
  | [n, c, h, w] => .ok [n, c, h, w]
  | s => .error (unsupportedDimMsg s.length)

/-! ### Concrete fixtures and abstract-backend forms -/

/-- An all-black source frame. -/
def zeroImg : Image := fun _ _ _ => 0

/-- An all-zero crop (used as the junk out-of-range batch element). -/
def dummyCrop : Crop := fun _ _ _ => 0

/-- A clock on which every measurement reads zero. -/
def zeroClock : Clock := ⟨0, 0, 0, 0, 0⟩

/-- The spec §8 scenario configuration: 192×256 input, no normalization, no
keypoint remap. -/
def cfg192 : RTMPoseCfg :=
  RTMPose.initCfg (192, 256) none none false

/-- The spec §8 scenario box (100, 100, 200, 300). -/
def box0 : BBox := ⟨100, 100, 200, 300⟩

/-- A horizontal SimCC output whose argmax for every keypoint sits at the
crop-center split coordinate 96 · 2 = 192 (resolution 192 · 2 = 384). -/
def centerPeakX : Tensor3 := ⟨1, 17, 384, fun _ _ l => if l = 192 then 1 else 0⟩

/-- A vertical SimCC output whose argmax for every keypoint sits at the
crop-center split coordinate 128 · 2 = 256 (resolution 256 · 2 = 512). -/
def centerPeakY : Tensor3 := ⟨1, 17, 512, fun _ _ l => if l = 256 then 1 else 0⟩

/-- A constant backend producing the all-center-argmax output of the spec §8
scenario. -/
def centerPeakNet : List Crop → Tensor3 × Tensor3 := fun _ => (centerPeakX, centerPeakY)

/-- A batch-elementwise backend: output row i depends only on crop i (the
semantics of `RawModelOutput`, spec §3: per-box SimCC outputs stacked in
batch order). -/
def elementwiseNet (K R S : ℕ) (fx fy : Crop → ℕ → ℕ → ℚ) :
    List Crop → Tensor3 × Tensor3 :=
  fun crops =>
    (⟨crops.length, K, R, fun i j l => fx (crops.getD i dummyCrop) j l⟩,
     ⟨crops.length, K, S, fun i j l => fy (crops.getD i dummyCrop) j l⟩)

/-- The model-output shape contract (spec §3, RawModelOutput): both SimCC
tensors have batch size N and keypoint count K. -/
def NetShapeOK (net : List Crop → Tensor3 × Tensor3) (K : ℕ) : Prop :=
  ∀ crops : List Crop,
    (net crops).1.n = crops.length ∧ (net crops).1.k = K ∧
    (net crops).2.n = crops.length ∧ (net crops).2.k = K

/-- The running fold underlying `argmaxFirst`. -/
def argmaxStep (f : ℕ → ℚ) : ℕ × ℚ → ℕ → ℕ × ℚ :=
  fun best i => if f i > best.2 then (i, f i) else best

lemma argmaxFirst_eq_foldl (f : ℕ → ℚ) (len : ℕ) :
    argmaxFirst f len = (List.range len).foldl (argmaxStep f) (0, f 0) := rfl

lemma argmaxStep_foldl_zero (f : ℕ → ℚ) (p : ℕ)
    (hf : ∀ j, j ≠ p → f j = 0) :
    ∀ n, n ≤ p → (List.range n).foldl (argmaxStep f) (0, 0) = (0, 0) := by
  intro n
  induction n with
  | zero => intro _; simp
  | succ m ih =>
      intro h
      rw [List.range_succ, List.foldl_append, ih (Nat.le_of_succ_le h)]
      have hm : f m = 0 := hf m (Nat.ne_of_lt (Nat.lt_of_succ_le h))
      simp [argmaxStep, hm]

lemma argmaxStep_foldl_peak (f : ℕ → ℚ) (p : ℕ) (hfp : f p = 1)
    (hf : ∀ j, j ≠ p → f j = 0) :
    ∀ n, p < n → (List.range n).foldl (argmaxStep f) (0, 0) = (p, 1) := by
  intro n
  induction n with
  | zero => intro h; exact absurd h (Nat.not_lt_zero p)
  | succ m ih =>
      intro h
      rcases Nat.lt_or_ge p m with hlt | hge
      · rw [List.range_succ, List.foldl_append, ih hlt]
        have hm : f m = 0 := hf m (Nat.ne_of_gt hlt)
        simp [argmaxStep, hm]
      · have hpm : p = m := Nat.le_antisymm (Nat.le_of_lt_succ h) hge
        subst hpm
        rw [List.range_succ, List.foldl_append,
            argmaxStep_foldl_zero f p hf p (Nat.le_refl p)]
        simp [argmaxStep, hfp]

/-- `argmaxFirst` on a one-hot vector with its peak at a positive index p
returns (p, 1). -/
lemma argmaxFirst_peak (f : ℕ → ℚ) (p len : ℕ) (hp : p < len) (h0 : 0 < p)
    (hfp : f p = 1) (hf : ∀ j, j ≠ p → f j = 0) :
    argmaxFirst f len = (p, 1) := by
  have h00 : f 0 = 0 := hf 0 (Nat.ne_of_lt h0)
  rw [argmaxFirst_eq_foldl, h00]
  exact argmaxStep_foldl_peak f p hfp hf len hp

/-- A fully healthy environment except that MPS/CoreML support is absent. -/
def envMpsAbsent : Env :=
  { mpsSupport := false, opencvModelReadable := true, ortAvailable := true,
    ortSessionOk := true, ovAvailable := true, ovModelOk := true }

def opencvName : String := "opencv"

def ortName : String := "onnxruntime"

def openvinoName : String := "openvino"

def cpuName : String := "cpu"

def cudaName : String := "cuda"

def mpsName : String := "mps"

/-- A shape-conforming backend producing all-zero SimCC outputs (used to
instantiate universally quantified theorems at a concrete input). -/
def zeroNet : List Crop → Tensor3 × Tensor3 :=
  elementwiseNet 17 384 512 (fun _ _ _ => 0) (fun _ _ _ => 0)

lemma zeroNet_shape_ok : NetShapeOK zeroNet 17 :=
  fun _ => ⟨rfl, rfl, rfl, rfl⟩

/-! ### Helper lemmas -/

lemma getD_map_of_lt {α β : Type _} (f : α → β) (l : List α) (i : ℕ)
    (h : i < l.length) (d : β) :
    (l.map f).getD i d = f (l.get ⟨i, h⟩) := by
  simp [List.getD_eq_getElem?_getD, List.getElem?_map,
        List.getElem?_eq_getElem (l := l) h]

lemma preprocess_crops_length (cfg : RTMPoseCfg) (img : Image) (bs : List BBox) :
    (RTMPose.preprocess cfg img bs).1.length = bs.length := by
  simp [RTMPose.preprocess]

/-- Shape contract of `RTMPose.call` for a shape-conforming backend (shared
between several claims). -/
lemma call_shapes (cfg : RTMPoseCfg) (net : List Crop → Tensor3 × Tensor3)
    (clk : Clock) (img : Image) (bs : List BBox) (hnet : NetShapeOK net 17) :
    (RTMPose.call cfg net clk img bs).keypoints.n = bs.length ∧
    (RTMPose.call cfg net clk img bs).keypoints.k = 17 ∧
    (RTMPose.call cfg net clk img bs).scores.n = bs.length ∧
    (RTMPose.call cfg net clk img bs).scores.k = 17 := by
  cases bs with
  | nil => simp [RTMPose.call]
  | cons b tl =>
      obtain ⟨h1, h2, h3, h4⟩ := hnet (RTMPose.preprocess cfg img (b :: tl)).1
      have hlen : (RTMPose.preprocess cfg img (b :: tl)).1.length = tl.length + 1 := by
        simp [RTMPose.preprocess]
      have hn0 : ¬((net (RTMPose.preprocess cfg img (b :: tl)).1).1.n = 0) := by
        rw [h1, hlen]; exact Nat.succ_ne_zero _
      cases hop : cfg.to_openpose <;>
        simp [RTMPose.call, RTMPose.postprocess, hop, hn0,
              convert_coco_to_openpose, h1, h2, hlen]

/-- The center of box b as stored by the preprocessor. -/
def centerOf (b : BBox) : Vec2 := (bbox_xyxy2cs b (5 / 4)).1

/-- The adjusted (post aspect-ratio-correction) scale of box b as stored by
the preprocessor for the given model input size. -/
def adjScaleOf (size : ℕ × ℕ) (b : BBox) : Vec2 :=
  fixAspectRatio (bbox_xyxy2cs b (5 / 4)).2 ((size.1 : ℚ) / (size.2 : ℚ))

/-- The decode arithmetic in the spec's words (spec §4.4 steps 2-3):
pixel = ((loc / split_ratio) / target_size) * scale + center - scale / 2,
applied per axis. -/
def decodePixel (splitR : ℚ) (size : ℕ × ℕ) (scale center loc : Vec2) : Vec2 :=
  (loc.1 / splitR / (size.1 : ℚ) * scale.1 + center.1 - scale.1 / 2,
   loc.2 / splitR / (size.2 : ℚ) * scale.2 + center.2 - scale.2 / 2)

lemma stepOf_center (cfg : RTMPoseCfg) (img : Image) (b : BBox) :
    (stepOf cfg img b).2.1 = centerOf b := rfl

lemma stepOf_scale (cfg : RTMPoseCfg) (img : Image) (b : BBox) :
    (stepOf cfg img b).2.2 = adjScaleOf cfg.model_input_size b := rfl

lemma postprocess_keypoint_entry (cfg : RTMPoseCfg) (out : Tensor3 × Tensor3)
    (centers scales : List Vec2) (splitR : ℚ) (i j : ℕ)
    (hn : ¬(out.1.n = 0)) :
    (RTMPose.postprocess cfg out centers scales splitR).1.data i j =
      decodePixel splitR cfg.model_input_size (scales.getD i (0, 0))
        (centers.getD i (0, 0)) ((get_simcc_maximum out.1 out.2).1 i j) := by
  simp [RTMPose.postprocess, hn, get_simcc_maximum, slice1, decodePixel]

lemma postprocess_score_entry (cfg : RTMPoseCfg) (out : Tensor3 × Tensor3)
    (centers scales : List Vec2) (splitR : ℚ) (i j : ℕ)
    (hn : ¬(out.1.n = 0)) :
    (RTMPose.postprocess cfg out centers scales splitR).2.data i j =
      (get_simcc_maximum out.1 out.2).2 i j := by
  simp [RTMPose.postprocess, hn, get_simcc_maximum, slice1]

/-- Decode correctness of a full call (shared helper): with the remap off,
output entry (i, j) is the spec decode formula applied to the argmax
locations of the model output at (i, j), with split ratio 2, the adjusted
scale and the center of input box i. -/
lemma call_keypoint_entry (cfg : RTMPoseCfg)
    (net : List Crop → Tensor3 × Tensor3) (clk : Clock) (img : Image)
    (bs : List BBox) (i j : ℕ) (hi : i < bs.length)
    (hop : cfg.to_openpose = false)
    (hn : ¬((net (RTMPose.preprocess cfg img bs).1).1.n = 0)) :
    (RTMPose.call cfg net clk img bs).keypoints.data i j =
      decodePixel 2 cfg.model_input_size
        (adjScaleOf cfg.model_input_size (bs.get ⟨i, hi⟩))
        (centerOf (bs.get ⟨i, hi⟩))
        ((get_simcc_maximum (net (RTMPose.preprocess cfg img bs).1).1
            (net (RTMPose.preprocess cfg img bs).1).2).1 i j) := by
  cases bs with
  | nil => exact absurd hi (by simp)
  | cons b tl =>
      have hkp : (RTMPose.call cfg net clk img (b :: tl)).keypoints =
          (RTMPose.postprocess cfg (net (RTMPose.preprocess cfg img (b :: tl)).1)
            (RTMPose.preprocess cfg img (b :: tl)).2.1
            (RTMPose.preprocess cfg img (b :: tl)).2.2 2).1 := by
        simp [RTMPose.call, hop]
      rw [hkp, postprocess_keypoint_entry cfg _ _ _ 2 i j hn]
      have hc : (RTMPose.preprocess cfg img (b :: tl)).2.1.getD i (0, 0) =
          centerOf ((b :: tl).get ⟨i, hi⟩) := by
        rw [show (RTMPose.preprocess cfg img (b :: tl)).2.1 =
              (b :: tl).map (fun x => (stepOf cfg img x).2.1) from rfl,
            getD_map_of_lt _ _ i hi, stepOf_center]
      have hs : (RTMPose.preprocess cfg img (b :: tl)).2.2.getD i (0, 0) =
          adjScaleOf cfg.model_input_size ((b :: tl).get ⟨i, hi⟩) := by
        rw [show (RTMPose.preprocess cfg img (b :: tl)).2.2 =
              (b :: tl).map (fun x => (stepOf cfg img x).2.2) from rfl,
            getD_map_of_lt _ _ i hi, stepOf_scale]
      rw [hc, hs]

/-- The crop the preprocessor builds for box i (shared helper). -/
lemma preprocess_crop_entry (cfg : RTMPoseCfg) (img : Image) (bs : List BBox)
    (i : ℕ) (hi : i < bs.length) :
    (RTMPose.preprocess cfg img bs).1.getD i dummyCrop =
      (stepOf cfg img (bs.get ⟨i, hi⟩)).1 := by
  rw [show (RTMPose.preprocess cfg img bs).1 =
        bs.map (fun x => (stepOf cfg img x).1) from rfl,
      getD_map_of_lt _ _ i hi]

/-- The keypoint row the pipeline produces for one box under a
batch-elementwise backend: crop the box, decode the per-crop model output
with the box's own center and adjusted scale (shared helper). -/
def perBoxRow (cfg : RTMPoseCfg) (R S : ℕ) (fx fy : Crop → ℕ → ℕ → ℚ)
    (img : Image) (b : BBox) (j : ℕ) : Vec2 :=
  decodePixel 2 cfg.model_input_size (adjScaleOf cfg.model_input_size b)
    (centerOf b)
    (((argmaxFirst (fx (stepOf cfg img b).1 j) R).1 : ℚ),
     ((argmaxFirst (fy (stepOf cfg img b).1 j) S).1 : ℚ))

/-- The score row for one box under a batch-elementwise backend. -/
def perBoxScore (cfg : RTMPoseCfg) (R S : ℕ) (fx fy : Crop → ℕ → ℕ → ℚ)
    (img : Image) (b : BBox) (j : ℕ) : ℚ :=
  (argmaxFirst (fx (stepOf cfg img b).1 j) R).2 *
  (argmaxFirst (fy (stepOf cfg img b).1 j) S).2

lemma elementwise_nonzero (K R S : ℕ) (fx fy : Crop → ℕ → ℕ → ℚ)
    (cfg : RTMPoseCfg) (img : Image) (bs : List BBox) (i : ℕ)
    (hi : i < bs.length) :
    ¬((elementwiseNet K R S fx fy (RTMPose.preprocess cfg img bs).1).1.n = 0) := by
  show ¬((RTMPose.preprocess cfg img bs).1.length = 0)
  rw [preprocess_crops_length]
  omega

lemma elementwise_postprocess_keypoint (cfg : RTMPoseCfg) (K R S : ℕ)
    (fx fy : Crop → ℕ → ℕ → ℚ) (img : Image) (bs : List BBox) (i j : ℕ)
    (hi : i < bs.length) :
    (RTMPose.postprocess cfg
        (elementwiseNet K R S fx fy (RTMPose.preprocess cfg img bs).1)
        (RTMPose.preprocess cfg img bs).2.1
        (RTMPose.preprocess cfg img bs).2.2 2).1.data i j =
      perBoxRow cfg R S fx fy img (bs.get ⟨i, hi⟩) j := by
  rw [postprocess_keypoint_entry _ _ _ _ _ i j
      (elementwise_nonzero K R S fx fy cfg img bs i hi)]
  have hc : (RTMPose.preprocess cfg img bs).2.1.getD i (0, 0) =
      centerOf (bs.get ⟨i, hi⟩) := by
    rw [show (RTMPose.preprocess cfg img bs).2.1 =
          bs.map (fun x => (stepOf cfg img x).2.1) from rfl,
        getD_map_of_lt _ _ i hi, stepOf_center]
  have hs : (RTMPose.preprocess cfg img bs).2.2.getD i (0, 0) =
      adjScaleOf cfg.model_input_size (bs.get ⟨i, hi⟩) := by
    rw [show (RTMPose.preprocess cfg img bs).2.2 =
          bs.map (fun x => (stepOf cfg img x).2.2) from rfl,
        getD_map_of_lt _ _ i hi, stepOf_scale]
  rw [hc, hs]
  simp only [get_simcc_maximum, elementwiseNet, perBoxRow,
             preprocess_crop_entry cfg img bs i hi]

lemma elementwise_postprocess_score (cfg : RTMPoseCfg) (K R S : ℕ)
    (fx fy : Crop → ℕ → ℕ → ℚ) (img : Image) (bs : List BBox) (i j : ℕ)
    (hi : i < bs.length) :
    (RTMPose.postprocess cfg
        (elementwiseNet K R S fx fy (RTMPose.preprocess cfg img bs).1)
        (RTMPose.preprocess cfg img bs).2.1
        (RTMPose.preprocess cfg img bs).2.2 2).2.data i j =
      perBoxScore cfg R S fx fy img (bs.get ⟨i, hi⟩) j := by
  rw [postprocess_score_entry _ _ _ _ _ i j
      (elementwise_nonzero K R S fx fy cfg img bs i hi)]
  simp only [get_simcc_maximum, elementwiseNet, perBoxScore,
             preprocess_crop_entry cfg img bs i hi]

lemma call_elementwise_keypoint (cfg : RTMPoseCfg) (K R S : ℕ)
    (fx fy : Crop → ℕ → ℕ → ℚ) (clk : Clock) (img : Image) (bs : List BBox)
    (i j : ℕ) (hi : i < bs.length) :
    (RTMPose.call cfg (elementwiseNet K R S fx fy) clk img bs).keypoints.data i j =
      perBoxRow cfg R S fx fy img (bs.get ⟨i, hi⟩)
        (if cfg.to_openpose then openposeOrder.getD j j else j) := by
  cases bs with
  | nil => exact absurd hi (by simp)
  | cons b tl =>
      cases hop : cfg.to_openpose
      · have hkp : (RTMPose.call cfg (elementwiseNet K R S fx fy) clk img
            (b :: tl)).keypoints.data i j =
            (RTMPose.postprocess cfg
              (elementwiseNet K R S fx fy (RTMPose.preprocess cfg img (b :: tl)).1)
              (RTMPose.preprocess cfg img (b :: tl)).2.1
              (RTMPose.preprocess cfg img (b :: tl)).2.2 2).1.data i j := by
          simp [RTMPose.call, hop]
        rw [hkp, elementwise_postprocess_keypoint cfg K R S fx fy img (b :: tl) i j hi]
        simp
      · have hkp : (RTMPose.call cfg (elementwiseNet K R S fx fy) clk img
            (b :: tl)).keypoints.data i j =
            (RTMPose.postprocess cfg
              (elementwiseNet K R S fx fy (RTMPose.preprocess cfg img (b :: tl)).1)
              (RTMPose.preprocess cfg img (b :: tl)).2.1
              (RTMPose.preprocess cfg img (b :: tl)).2.2 2).1.data i
              (openposeOrder.getD j j) := by
          simp [RTMPose.call, hop, convert_coco_to_openpose]
        rw [hkp, elementwise_postprocess_keypoint cfg K R S fx fy img (b :: tl) i
            (openposeOrder.getD j j) hi]
        simp

lemma call_elementwise_score (cfg : RTMPoseCfg) (K R S : ℕ)
    (fx fy : Crop → ℕ → ℕ → ℚ) (clk : Clock) (img : Image) (bs : List BBox)
    (i j : ℕ) (hi : i < bs.length) :
    (RTMPose.call cfg (elementwiseNet K R S fx fy) clk img bs).scores.data i j =
      perBoxScore cfg R S fx fy img (bs.get ⟨i, hi⟩)
        (if cfg.to_openpose then openposeOrder.getD j j else j) := by
  cases bs with
  | nil => exact absurd hi (by simp)
  | cons b tl =>
      cases hop : cfg.to_openpose
      · have hkp : (RTMPose.call cfg (elementwiseNet K R S fx fy) clk img
            (b :: tl)).scores.data i j =
            (RTMPose.postprocess cfg
              (elementwiseNet K R S fx fy (RTMPose.preprocess cfg img (b :: tl)).1)
              (RTMPose.preprocess cfg img (b :: tl)).2.1
              (RTMPose.preprocess cfg img (b :: tl)).2.2 2).2.data i j := by
          simp [RTMPose.call, hop]
        rw [hkp, elementwise_postprocess_score cfg K R S fx fy img (b :: tl) i j hi]
        simp
      · have hkp : (RTMPose.call cfg (elementwiseNet K R S fx fy) clk img
            (b :: tl)).scores.data i j =
            (RTMPose.postprocess cfg
              (elementwiseNet K R S fx fy (RTMPose.preprocess cfg img (b :: tl)).1)
              (RTMPose.preprocess cfg img (b :: tl)).2.1
              (RTMPose.preprocess cfg img (b :: tl)).2.2 2).2.data i
              (openposeOrder.getD j j) := by
          simp [RTMPose.call, hop, convert_coco_to_openpose]
        rw [hkp, elementwise_postprocess_score cfg K R S fx fy img (b :: tl) i
            (openposeOrder.getD j j) hi]
        simp

/-! ### Claims -/

/-- Claim C1: for every call with a frame and N ≥ 0 boxes (and a backend
meeting the RawModelOutput shape contract with K = 17), the returned
keypoints array has shape (N, 17, 2) and the scores array shape (N, 17); in
particular N = 0 yields the empty shapes (0, 17, 2) and (0, 17), never an
absent value. -/
theorem call_shape_contract (cfg : RTMPoseCfg)
    (net : List Crop → Tensor3 × Tensor3) (clk : Clock) (img : Image)
    (bs : List BBox) (hnet : NetShapeOK net 17) :
    (RTMPose.call cfg net clk img bs).keypoints.n = bs.length ∧
    (RTMPose.call cfg net clk img bs).keypoints.k = 17 ∧
    (RTMPose.call cfg net clk img bs).scores.n = bs.length ∧
    (RTMPose.call cfg net clk img bs).scores.k = 17 :=
  call_shapes cfg net clk img bs hnet

/-- Witness for C1 at a concrete input (one box, the zero backend). -/
theorem call_shape_contract_witness :
    (RTMPose.call cfg192 zeroNet zeroClock zeroImg [box0]).keypoints.n = 1 ∧
    (RTMPose.call cfg192 zeroNet zeroClock zeroImg [box0]).keypoints.k = 17 ∧
    (RTMPose.call cfg192 zeroNet zeroClock zeroImg [box0]).scores.n = 1 ∧
    (RTMPose.call cfg192 zeroNet zeroClock zeroImg [box0]).scores.k = 17 :=
  call_shape_contract cfg192 zeroNet zeroClock zeroImg [box0] zeroNet_shape_ok

/-- Claim C6: a call with an empty box list returns the fixed-shape empty
arrays immediately and performs no backend inference call; the timing record
reports 0 for every stage duration and for the box count, with the total
being the call's own (idealized zero) elapsed measurement. -/
theorem call_empty_no_inference (cfg : RTMPoseCfg)
    (net : List Crop → Tensor3 × Tensor3) (clk : Clock) (img : Image)
    (h : clk.totalElapsed = 0) :
    (RTMPose.call cfg net clk img []).inferenceCalls = 0 ∧
    (RTMPose.call cfg net clk img []).keypoints.n = 0 ∧
    (RTMPose.call cfg net clk img []).keypoints.k = 17 ∧
    (RTMPose.call cfg net clk img []).scores.n = 0 ∧
    (RTMPose.call cfg net clk img []).scores.k = 17 ∧
    (RTMPose.call cfg net clk img []).timing_info =
      [(r"total", 0), (r"preprocess", 0), (r"prep", 0), (r"model", 0),
       (r"postprocess", 0), (r"num_bboxes", 0)] := by
  refine ⟨rfl, rfl, rfl, rfl, rfl, ?_⟩
  simp [RTMPose.call, h]

/-- Witness for C6 at a concrete input. -/
theorem call_empty_no_inference_witness :
    (RTMPose.call cfg192 zeroNet zeroClock zeroImg []).inferenceCalls = 0 ∧
    (RTMPose.call cfg192 zeroNet zeroClock zeroImg []).keypoints.n = 0 ∧
    (RTMPose.call cfg192 zeroNet zeroClock zeroImg []).keypoints.k = 17 ∧
    (RTMPose.call cfg192 zeroNet zeroClock zeroImg []).scores.n = 0 ∧
    (RTMPose.call cfg192 zeroNet zeroClock zeroImg []).scores.k = 17 ∧
    (RTMPose.call cfg192 zeroNet zeroClock zeroImg []).timing_info =
      [(r"total", 0), (r"preprocess", 0), (r"prep", 0), (r"model", 0),
       (r"postprocess", 0), (r"num_bboxes", 0)] :=
  call_empty_no_inference cfg192 zeroNet zeroClock zeroImg rfl

/-- Claim C9 (amended): every call's timing record carries exactly the keys
total, preprocess, prep, model, postprocess and num_bboxes (the box-count
field is named num_bboxes, not num_boxes), and the num_bboxes entry equals
the number of input boxes. -/
theorem timing_record_fields (cfg : RTMPoseCfg)
    (net : List Crop → Tensor3 × Tensor3) (clk : Clock) (img : Image)
    (bs : List BBox) :
    (RTMPose.call cfg net clk img bs).timing_info.map Prod.fst =
      [r"total", r"preprocess", r"prep", r"model", r"postprocess",
       r"num_bboxes"] ∧
    List.lookup (r"num_bboxes") (RTMPose.call cfg net clk img bs).timing_info =
      some ((bs.length : ℚ)) := by
  cases bs <;> simp [RTMPose.call, List.lookup]

/-- Counterexample for C9 as stated: at a concrete call the timing record's
key set is total/preprocess/prep/model/postprocess/num_bboxes and contains no
key named num_boxes, contradicting the claimed field name. -/
theorem timing_record_key_is_num_bboxes :
    ((RTMPose.call cfg192 zeroNet zeroClock zeroImg []).timing_info.map
        Prod.fst).contains (r"num_bboxes") = true ∧
    ((RTMPose.call cfg192 zeroNet zeroClock zeroImg []).timing_info.map
        Prod.fst).contains (r"num_boxes") = false :=
  ⟨rfl, rfl⟩

/-- Claim C3: for every box i, the decoder computes the image-space keypoint
exactly as pixel = ((locs / split_ratio) / target_size) * adjusted_scale +
center - adjusted_scale / 2, with split_ratio defaulting to 2.0, target_size
the model input size, and the adjusted (post aspect-ratio-correction) scale
and center of box i. -/
theorem decode_formula (cfg : RTMPoseCfg)
    (net : List Crop → Tensor3 × Tensor3) (clk : Clock) (img : Image)
    (bs : List BBox) (i j : ℕ) (hi : i < bs.length)
    (hop : cfg.to_openpose = false)
    (hn : ¬((net (RTMPose.preprocess cfg img bs).1).1.n = 0)) :
    (RTMPose.call cfg net clk img bs).keypoints.data i j =
      decodePixel 2 cfg.model_input_size
        (adjScaleOf cfg.model_input_size (bs.get ⟨i, hi⟩))
        (centerOf (bs.get ⟨i, hi⟩))
        ((get_simcc_maximum (net (RTMPose.preprocess cfg img bs).1).1
            (net (RTMPose.preprocess cfg img bs).1).2).1 i j) :=
  call_keypoint_entry cfg net clk img bs i j hi hop hn

/-- Witness for C3 at a concrete input (one box, the center-peak backend). -/
theorem decode_formula_witness :
    (RTMPose.call cfg192 centerPeakNet zeroClock zeroImg [box0]).keypoints.data 0 0 =
      decodePixel 2 cfg192.model_input_size
        (adjScaleOf cfg192.model_input_size box0) (centerOf box0)
        ((get_simcc_maximum
            (centerPeakNet (RTMPose.preprocess cfg192 zeroImg [box0]).1).1
            (centerPeakNet (RTMPose.preprocess cfg192 zeroImg [box0]).1).2).1 0 0) :=
  decode_formula cfg192 centerPeakNet zeroClock zeroImg [box0] 0 0
    (by norm_num) rfl (by simp [centerPeakNet, centerPeakX])

/-- Claim C4: spec §8 scenario — one box (100, 100, 200, 300) with padding
1.25 and target size 192×256: the raw scale (125, 250) is widened to the
adjusted scale (187.5, 250), whose aspect ratio is exactly 192/256, and a
model output whose argmax for every keypoint lies at the crop center decodes
to the box center (150, 200) for every of the 17 keypoints. -/
theorem scenario_aspect_and_center_decode :
    (bbox_xyxy2cs box0 (5 / 4)).2 = (125, 250) ∧
    adjScaleOf (192, 256) box0 = (187.5, 250) ∧
    (adjScaleOf (192, 256) box0).1 / (adjScaleOf (192, 256) box0).2 =
      (192 : ℚ) / 256 ∧
    ∀ j : Fin 17,
      (RTMPose.call cfg192 centerPeakNet zeroClock zeroImg [box0]).keypoints.data
        0 (j : ℕ) = (150, 200) := by
  have hadj : adjScaleOf (192, 256) box0 = (187.5, 250) := by
    norm_num [adjScaleOf, fixAspectRatio, bbox_xyxy2cs, box0]
  refine ⟨by norm_num [bbox_xyxy2cs, box0], hadj, by rw [hadj]; norm_num, ?_⟩
  intro j
  rw [call_keypoint_entry cfg192 centerPeakNet zeroClock zeroImg [box0] 0 (j : ℕ)
      (by norm_num) rfl (by simp [centerPeakNet, centerPeakX])]
  have hx : argmaxFirst
      ((centerPeakNet (RTMPose.preprocess cfg192 zeroImg [box0]).1).1.data 0 (j : ℕ))
      (centerPeakNet (RTMPose.preprocess cfg192 zeroImg [box0]).1).1.r = (192, 1) := by
    refine argmaxFirst_peak _ 192 384 (by norm_num) (by norm_num)
      (by simp [centerPeakNet, centerPeakX]) ?_
    intro l hl
    simp [centerPeakNet, centerPeakX, hl]
  have hy : argmaxFirst
      ((centerPeakNet (RTMPose.preprocess cfg192 zeroImg [box0]).1).2.data 0 (j : ℕ))
      (centerPeakNet (RTMPose.preprocess cfg192 zeroImg [box0]).1).2.r = (256, 1) := by
    refine argmaxFirst_peak _ 256 512 (by norm_num) (by norm_num)
      (by simp [centerPeakNet, centerPeakY]) ?_
    intro l hl
    simp [centerPeakNet, centerPeakY, hl]
  have hb : ∀ h : 0 < [box0].length, ([box0].get ⟨0, h⟩) = box0 := fun _ => rfl
  rw [hb]
  rw [show cfg192.model_input_size = (192, 256) from rfl, hadj]
  simp only [get_simcc_maximum, hx, hy]
  norm_num [decodePixel, centerOf, bbox_xyxy2cs, box0]

/-- A degenerate bounding box with x1 > x2. -/
def box1 : BBox := ⟨200, 100, 100, 300⟩

/-- Claim C2: box order is preserved end-to-end — under a batch-elementwise
backend (the model processes batch rows independently), the i-th row of the
output keypoints and scores arrays is exactly the pipeline's result for the
i-th input box run alone (for any clocks); permuting the input box list
therefore permutes the output rows identically. -/
theorem box_order_preserved (cfg : RTMPoseCfg) (K R S : ℕ)
    (fx fy : Crop → ℕ → ℕ → ℚ) (clk clk2 : Clock) (img : Image)
    (bs : List BBox) (i : ℕ) (hi : i < bs.length) :
    (∀ j, (RTMPose.call cfg (elementwiseNet K R S fx fy) clk img
        bs).keypoints.data i j =
      (RTMPose.call cfg (elementwiseNet K R S fx fy) clk2 img
        [bs.get ⟨i, hi⟩]).keypoints.data 0 j) ∧
    (∀ j, (RTMPose.call cfg (elementwiseNet K R S fx fy) clk img
        bs).scores.data i j =
      (RTMPose.call cfg (elementwiseNet K R S fx fy) clk2 img
        [bs.get ⟨i, hi⟩]).scores.data 0 j) := by
  constructor
  · intro j
    rw [call_elementwise_keypoint cfg K R S fx fy clk img bs i j hi,
        call_elementwise_keypoint cfg K R S fx fy clk2 img [bs.get ⟨i, hi⟩] 0 j
          (by norm_num)]
    rfl
  · intro j
    rw [call_elementwise_score cfg K R S fx fy clk img bs i j hi,
        call_elementwise_score cfg K R S fx fy clk2 img [bs.get ⟨i, hi⟩] 0 j
          (by norm_num)]
    rfl

/-- Witness for C2 at a concrete input: row 1 of a two-box call equals the
single-box call on the second box (with different clocks). -/
theorem box_order_preserved_witness :
    (∀ j, (RTMPose.call cfg192 (elementwiseNet 17 384 512 (fun _ _ _ => 0)
        (fun _ _ _ => 0)) zeroClock zeroImg [box1, box0]).keypoints.data 1 j =
      (RTMPose.call cfg192 (elementwiseNet 17 384 512 (fun _ _ _ => 0)
        (fun _ _ _ => 0)) ⟨1, 1, 1, 1, 1⟩ zeroImg [box0]).keypoints.data 0 j) ∧
    (∀ j, (RTMPose.call cfg192 (elementwiseNet 17 384 512 (fun _ _ _ => 0)
        (fun _ _ _ => 0)) zeroClock zeroImg [box1, box0]).scores.data 1 j =
      (RTMPose.call cfg192 (elementwiseNet 17 384 512 (fun _ _ _ => 0)
        (fun _ _ _ => 0)) ⟨1, 1, 1, 1, 1⟩ zeroImg [box0]).scores.data 0 j) :=
  box_order_preserved cfg192 17 384 512 (fun _ _ _ => 0) (fun _ _ _ => 0)
    zeroClock ⟨1, 1, 1, 1, 1⟩ zeroImg [box1, box0] 1 (by norm_num)

/-- Counterexample for C7 as stated: configuring the normalization
parameters as None does not yield an unnormalized pass-through — `__init__`
converts them with np.array regardless, the stored mean is the nan array
rather than None, and the crop still goes through the normalize branch of
`preprocess`. -/
theorem none_mean_still_normalizes :
    (RTMPose.initCfg (192, 256) none none false).mean = some nanArray ∧
    ¬((RTMPose.initCfg (192, 256) none none false).mean = none) ∧
    (RTMPose.preprocess (RTMPose.initCfg (192, 256) none none false) zeroImg
        [box0]).1.getD 0 dummyCrop =
      normalizeCrop nanArray nanArray (top_down_affine (192, 256)
        (bbox_xyxy2cs box0 (5 / 4)).2 (bbox_xyxy2cs box0 (5 / 4)).1 zeroImg).1 := by
  refine ⟨rfl, by simp [RTMPose.initCfg], ?_⟩
  rw [preprocess_crop_entry _ zeroImg [box0] 0 (by norm_num)]
  simp [stepOf, RTMPose.initCfg, npArrayF32]

/-- Claim C7 (amended): every crop the preprocessor produces for a
constructed RTMPose is channel-normalized (mean subtracted, divided by std)
with the np.array-converted mean/std before batching; configuring mean/std
as None does not disable normalization, because `__init__` converts
unconditionally — the stored mean is never None, so the pass-through branch
of `preprocess` is unreachable. -/
theorem preprocess_always_normalizes (sz : ℕ × ℕ) (meanIn stdIn : Option Pix)
    (op : Bool) (img : Image) (bs : List BBox) (i : ℕ) (hi : i < bs.length) :
    (RTMPose.initCfg sz meanIn stdIn op).mean = some (npArrayF32 meanIn) ∧
    (RTMPose.initCfg sz meanIn stdIn op).std = some (npArrayF32 stdIn) ∧
    (RTMPose.preprocess (RTMPose.initCfg sz meanIn stdIn op) img bs).1.getD i
        dummyCrop =
      normalizeCrop (npArrayF32 meanIn) (npArrayF32 stdIn)
        (top_down_affine sz (bbox_xyxy2cs (bs.get ⟨i, hi⟩) (5 / 4)).2
          (bbox_xyxy2cs (bs.get ⟨i, hi⟩) (5 / 4)).1 img).1 := by
  refine ⟨rfl, rfl, ?_⟩
  rw [preprocess_crop_entry _ img bs i hi]
  simp [stepOf, RTMPose.initCfg, npArrayF32]

/-- Witness for C7 (amended) at a concrete input: configured mean/std
tuples yield the crop normalized with exactly those values. -/
theorem preprocess_always_normalizes_witness :
    (RTMPose.initCfg (192, 256) (some (fun _ => 1)) (some (fun _ => 2))
        false).mean = some (npArrayF32 (some (fun _ => 1))) ∧
    (RTMPose.initCfg (192, 256) (some (fun _ => 1)) (some (fun _ => 2))
        false).std = some (npArrayF32 (some (fun _ => 2))) ∧
    (RTMPose.preprocess (RTMPose.initCfg (192, 256) (some (fun _ => 1))
        (some (fun _ => 2)) false) zeroImg [box0]).1.getD 0 dummyCrop =
      normalizeCrop (npArrayF32 (some (fun _ => 1)))
        (npArrayF32 (some (fun _ => 2)))
        (top_down_affine (192, 256) (bbox_xyxy2cs box0 (5 / 4)).2
          (bbox_xyxy2cs box0 (5 / 4)).1 zeroImg).1 :=
  preprocess_always_normalizes (192, 256) (some (fun _ => 1))
    (some (fun _ => 2)) false zeroImg [box0] 0 (by norm_num)

/-- Claim C8 (amended): inputs to the executor's inference whose rank is
neither 3 nor 4 are rejected with the descriptive ValueError, but bounding
boxes are not validated: a call on any single box — degenerate boxes with
x1 ≥ x2 or y1 ≥ y2 included — produces a populated (1, 17, 2)/(1, 17)
result instead of failing fast. -/
theorem shape_contract_amended (shape : List ℕ) (cfg : RTMPoseCfg)
    (net : List Crop → Tensor3 × Tensor3) (clk : Clock) (img : Image)
    (b : BBox) (h3 : shape.length ≠ 3) (h4 : shape.length ≠ 4)
    (hnet : NetShapeOK net 17) :
    BaseTool.prepareInput shape =
      Except.error (unsupportedDimMsg shape.length) ∧
    (RTMPose.call cfg net clk img [b]).keypoints.n = 1 ∧
    (RTMPose.call cfg net clk img [b]).scores.n = 1 := by
  refine ⟨?_, (call_shapes cfg net clk img [b] hnet).1,
    (call_shapes cfg net clk img [b] hnet).2.2.1⟩
  rcases shape with _ | ⟨a, _ | ⟨c, _ | ⟨e, _ | ⟨f, _ | ⟨g, t⟩⟩⟩⟩⟩ <;>
    simp_all [BaseTool.prepareInput]

/-- Witness for C8 (amended) at a concrete input: a rank-2 shape and the
degenerate box. -/
theorem shape_contract_amended_witness :
    BaseTool.prepareInput [7, 9] = Except.error (unsupportedDimMsg 2) ∧
    (RTMPose.call cfg192 zeroNet zeroClock zeroImg [box1]).keypoints.n = 1 ∧
    (RTMPose.call cfg192 zeroNet zeroClock zeroImg [box1]).scores.n = 1 :=
  shape_contract_amended [7, 9] cfg192 zeroNet zeroClock zeroImg box1
    (by norm_num) (by norm_num) zeroNet_shape_ok

/-- Counterexample for C8 as stated: the degenerate box (200, 100, 100, 300)
has x1 ≥ x2 yet the pipeline does not fail fast — it processes the box and
returns a populated (1, 17, 2)/(1, 17) result. -/
theorem degenerate_box_not_rejected :
    box1.x1 ≥ box1.x2 ∧
    (RTMPose.call cfg192 zeroNet zeroClock zeroImg [box1]).keypoints.n = 1 ∧
    (RTMPose.call cfg192 zeroNet zeroClock zeroImg [box1]).scores.n = 1 := by
  refine ⟨by norm_num [box1], rfl, rfl⟩

/-- Counterexample for C5 as stated: constructing with backend onnxruntime
and device mps in an environment without MPS/CoreML support succeeds with
nothing printed, configuring the CPU execution provider although the mps
selection is the CoreML provider — a silent fallback to a different device's
provider. -/
theorem mps_silent_cpu_fallback :
    BaseTool.init envMpsAbsent ortName mpsName =
      Except.ok ⟨Session.onnxruntimeSession cpuEP, []⟩ ∧
    specSelectedSession ortName mpsName =
      some (Session.onnxruntimeSession coremlEP) ∧
    ¬(cpuEP = coremlEP) := by
  refine ⟨rfl, rfl, by decide⟩

/-- Claim C5 (amended): backend-selection failure is a fatal error reported
to the caller and a successful construction configures exactly the selected
backend/device combination, except for two fallbacks the code performs:
backend onnxruntime with device mps and no MPS support silently uses the CPU
provider, and backend openvino with a non-cpu device switches to CPU while
printing a notice; outside those cases, combinations missing from the
settings tables never construct. -/
theorem backend_selection_amended (env : Env) (b d : String) :
    (∀ ok, BaseTool.init env b d = Except.ok ok →
      ¬(b = ortName ∧ d = mpsName ∧ env.mpsSupport = false) →
      ¬(b = openvinoName ∧ ¬(d = cpuName)) →
      specSelectedSession b d = some ok.session) ∧
    (specSelectedSession b d = none →
      ¬(b = openvinoName ∧ ¬(d = cpuName)) →
      ∃ e, BaseTool.init env b d = Except.error e) := by
  constructor
  · intro ok hok hmps hov
    obtain ⟨sess, prt⟩ := ok
    by_cases hb1 : b = "opencv"
    · subst hb1
      by_cases hd1 : d = "cpu"
      · subst hd1
        by_cases hr : env.opencvModelReadable <;>
          simp_all [BaseTool.init, specSelectedSession, opencvSettings]
      · by_cases hd2 : d = "cuda"
        · subst hd2
          by_cases hr : env.opencvModelReadable <;>
            simp_all [BaseTool.init, specSelectedSession, opencvSettings]
        · simp_all [BaseTool.init, opencvSettings]
    · by_cases hb2 : b = "onnxruntime"
      · subst hb2
        by_cases ha : env.ortAvailable
        · by_cases hd1 : d = "cpu"
          · subst hd1
            by_cases hs : env.ortSessionOk <;>
              simp_all [BaseTool.init, specSelectedSession, onnxruntimeSettings]
          · by_cases hd2 : d = "cuda"
            · subst hd2
              by_cases hs : env.ortSessionOk <;>
                simp_all [BaseTool.init, specSelectedSession, onnxruntimeSettings]
            · by_cases hd3 : d = "rocm"
              · subst hd3
                by_cases hs : env.ortSessionOk <;>
                  simp_all [BaseTool.init, specSelectedSession, onnxruntimeSettings]
              · by_cases hd4 : d = "mps"
                · subst hd4
                  have hsup : env.mpsSupport = true := by
                    cases hsv : env.mpsSupport
                    · exact absurd ⟨rfl, rfl, hsv⟩ hmps
                    · rfl
                  by_cases hs : env.ortSessionOk <;>
                    simp_all [BaseTool.init, specSelectedSession,
                      onnxruntimeSettings]
                · simp_all [BaseTool.init, onnxruntimeSettings]
        · simp_all [BaseTool.init]
      · by_cases hb3 : b = "openvino"
        · subst hb3
          have hd : d = "cpu" := by
            by_contra hdc
            exact hov ⟨rfl, hdc⟩
          subst hd
          by_cases ha : env.ovAvailable
          · by_cases hm : env.ovModelOk <;>
              simp_all [BaseTool.init, specSelectedSession]
          · simp_all [BaseTool.init]
        · simp_all [BaseTool.init]
  · intro hnone hov
    by_cases hb1 : b = "opencv"
    · subst hb1
      have hcv : opencvSettings d = none := by
        simpa [specSelectedSession, Option.map_eq_none'] using hnone
      exact ⟨opencvAdvice, by simp [BaseTool.init, hcv]⟩
    · by_cases hb2 : b = "onnxruntime"
      · subst hb2
        have hsett : onnxruntimeSettings true d = none := by
          simpa [specSelectedSession, Option.map_eq_none'] using hnone
        have hd : ¬(d = "cpu") ∧ ¬(d = "cuda") ∧ ¬(d = "rocm") ∧
            ¬(d = "mps") := by
          by_contra hc
          push_neg at hc
          unfold onnxruntimeSettings at hsett
          by_cases h1 : d = "cpu" <;> by_cases h2 : d = "cuda" <;>
            by_cases h3 : d = "rocm" <;> by_cases h4 : d = "mps" <;>
            simp_all
        have hsett2 : onnxruntimeSettings env.mpsSupport d = none := by
          unfold onnxruntimeSettings
          simp [hd.1, hd.2.1, hd.2.2.1, hd.2.2.2]
        by_cases ha : env.ortAvailable
        · exact ⟨keyErrorMsg d, by simp [BaseTool.init, hsett2, ha]⟩
        · exact ⟨importErrOrt, by simp [BaseTool.init, ha]⟩
      · by_cases hb3 : b = "openvino"
        · subst hb3
          have hd : d = "cpu" := by
            by_contra hdc
            exact hov ⟨rfl, hdc⟩
          subst hd
          simp [specSelectedSession] at hnone
        · exact ⟨notImplementedErr, by simp [BaseTool.init, hb1, hb2, hb3]⟩

/-- Witness for C5 (amended) at a concrete input: opencv on cpu constructs
exactly the selected settings-table entry. -/
theorem backend_selection_amended_witness :
    specSelectedSession opencvName cpuName =
      some (InitOk.mk (Session.opencvSession (r"DNN_BACKEND_OPENCV")
        (r"DNN_TARGET_CPU")) []).session :=
  (backend_selection_amended envMpsAbsent opencvName cpuName).1
    ⟨Session.opencvSession (r"DNN_BACKEND_OPENCV") (r"DNN_TARGET_CPU"), []⟩
    rfl (by intro h; exact absurd h.1 (by decide))
    (by intro h; exact absurd h.1 (by decide))

/-- Claim C10: with backend opencv, a device selector outside the opencv
settings table (such as mps or rocm) and an unreadable model alike raise the
same RuntimeError, whose message advises installing and using the
onnxruntime backend; the original exception is discarded, so the caller
cannot distinguish the two causes. -/
theorem opencv_error_collapse (env : Env) (d : String)
    (h : opencvSettings d = none ∨ env.opencvModelReadable = false) :
    BaseTool.init env opencvName d = Except.error opencvAdvice ∧
    ∃ pre post, opencvAdvice = pre ++ r"onnxruntime" ++ post := by
  constructor
  · rcases h with h | h
    · simp [BaseTool.init, opencvName, h]
    · rcases hcv : opencvSettings d with _ | bt <;>
        simp [BaseTool.init, opencvName, hcv, h]
  · exact ⟨r"This model is not supported by OpenCV backend, please use `pip install ",
      r"` or `pip install onnxruntime-gpu` to install onnxruntime backend. Then specify `backend=onnxruntime`.",
      rfl⟩

/-- Witness for C10 at a concrete input: device mps with a readable model. -/
theorem opencv_error_collapse_witness :
    BaseTool.init envMpsAbsent opencvName mpsName =
      Except.error opencvAdvice ∧
    ∃ pre post, opencvAdvice = pre ++ r"onnxruntime" ++ post :=
  opencv_error_collapse envMpsAbsent mpsName (Or.inl rfl)


end LabMocap
